import Mathlib

/-!
Verification of the kinsumer configuration layer (src/config.go).

The Go source is shallowly embedded: `time.Duration` is a signed 64-bit
nanosecond count, modelled as `Int`; `int` and `int64` fields are `Int`;
Go interface values (`StatReceiver`, `Logger`), which may be nil, are
`Option`; the `*time.Time` pointer field is `Option Time`; the Kinesis
shard-iterator type is the SDK string constant. Value-receiver methods
copy the struct, so each `With...` modifier is a pure structure update.
`validateConfig` returns `error` (nil on success), modelled as
`Option ConfigError`.
-/

namespace Kinsumer

/-- Go time.Duration: a signed 64-bit count of nanoseconds. -/
abbrev Duration : Type := Int

/-- Go time.Millisecond in nanoseconds. -/
def millisecond : Duration := 1000000

/-- Go time.Second in nanoseconds. -/
def second : Duration := 1000000000

/-- Go time.Minute in nanoseconds. -/
def minute : Duration := 60000000000

/-- Go time.Time instants, abstracted as nanoseconds since the epoch. -/
abbrev Time : Type := Int

/-- Modelled from the spec: StatReceiver is the metrics-emission capability
interface declared outside src/; only its identity and presence matter to
the configuration layer. The no-op implementation is the default. -/
inductive StatReceiver where
  | noopStatReceiver : StatReceiver
  | custom : Nat → StatReceiver
deriving DecidableEq, Repr

/-- Modelled from the spec: Logger is the structured-logging capability
interface declared outside src/; only its identity and presence matter to
the configuration layer. The default logger is the default. -/
inductive Logger where
  | defaultLogger : Logger
  | custom : Nat → Logger
deriving DecidableEq, Repr

/-- Modelled from the spec: aws-sdk-go kinesis.ShardIteratorTypeAtSequenceNumber. -/
def ShardIteratorTypeAtSequenceNumber : String := "AT_SEQUENCE_NUMBER"

/-- Modelled from the spec: aws-sdk-go kinesis.ShardIteratorTypeAfterSequenceNumber. -/
def ShardIteratorTypeAfterSequenceNumber : String := "AFTER_SEQUENCE_NUMBER"

/-- Modelled from the spec: aws-sdk-go kinesis.ShardIteratorTypeAtTimestamp. -/
def ShardIteratorTypeAtTimestamp : String := "AT_TIMESTAMP"

/-- Modelled from the spec: aws-sdk-go kinesis.ShardIteratorTypeLatest. -/
def ShardIteratorTypeLatest : String := "LATEST"

/-- Modelled from the spec: aws-sdk-go kinesis.ShardIteratorTypeTrimHorizon. -/
def ShardIteratorTypeTrimHorizon : String := "TRIM_HORIZON"

/-- Config holds all configuration values for a single Kinsumer instance
(src/config.go lines 15-51). Go interface and pointer fields are Option. -/
structure Config where
  stats : Option StatReceiver
  logger : Option Logger
  throttleDelay : Duration
  commitFrequency : Duration
  shardCheckFrequency : Duration
  leaderActionFrequency : Duration
  bufferSize : Int
  dynamoReadCapacity : Int
  dynamoWriteCapacity : Int
  dynamoWaiterDelay : Duration
  shardIteratorType : String
  atTimestamp : Option Time
  sequenceNumber : String
deriving DecidableEq, Repr

/-- NewConfig returns a default Config struct (src/config.go lines 54-68).
Fields omitted from the Go composite literal take the Go zero value:
nil for the atTimestamp pointer and "" for the sequenceNumber string. -/
def NewConfig : Config :=
  { shardIteratorType := ShardIteratorTypeAfterSequenceNumber
    throttleDelay := 250 * millisecond
    commitFrequency := 1000 * millisecond
    shardCheckFrequency := 1 * minute
    leaderActionFrequency := 1 * minute
    bufferSize := 100
    stats := some .noopStatReceiver
    dynamoReadCapacity := 10
    dynamoWriteCapacity := 10
    dynamoWaiterDelay := 3 * second
    logger := some .defaultLogger
    atTimestamp := none
    sequenceNumber := "" }

/-- WithThrottleDelay returns a Config with a modified throttle delay. -/
def Config.WithThrottleDelay (c : Config) (delay : Duration) : Config :=
  { c with throttleDelay := delay }

/-- WithCommitFrequency returns a Config with a modified commit frequency. -/
def Config.WithCommitFrequency (c : Config) (commitFrequency : Duration) : Config :=
  { c with commitFrequency := commitFrequency }

/-- WithShardCheckFrequency returns a Config with a modified shard check frequency. -/
def Config.WithShardCheckFrequency (c : Config) (shardCheckFrequency : Duration) : Config :=
  { c with shardCheckFrequency := shardCheckFrequency }

/-- WithLeaderActionFrequency returns a Config with a modified leader action frequency. -/
def Config.WithLeaderActionFrequency (c : Config) (leaderActionFrequency : Duration) : Config :=
  { c with leaderActionFrequency := leaderActionFrequency }

/-- WithBufferSize returns a Config with a modified buffer size. -/
def Config.WithBufferSize (c : Config) (bufferSize : Int) : Config :=
  { c with bufferSize := bufferSize }

/-- WithStats returns a Config with a modified stats. -/
def Config.WithStats (c : Config) (stats : Option StatReceiver) : Config :=
  { c with stats := stats }

/-- WithDynamoReadCapacity returns a Config with a modified dynamo read capacity. -/
def Config.WithDynamoReadCapacity (c : Config) (readCapacity : Int) : Config :=
  { c with dynamoReadCapacity := readCapacity }

/-- WithDynamoWriteCapacity returns a Config with a modified dynamo write capacity. -/
def Config.WithDynamoWriteCapacity (c : Config) (writeCapacity : Int) : Config :=
  { c with dynamoWriteCapacity := writeCapacity }

/-- WithDynamoWaiterDelay returns a Config with a modified dynamo waiter delay. -/
def Config.WithDynamoWaiterDelay (c : Config) (delay : Duration) : Config :=
  { c with dynamoWaiterDelay := delay }

/-- WithLogger returns a Config with a modified logger. -/
def Config.WithLogger (c : Config) (logger : Option Logger) : Config :=
  { c with logger := logger }

/-- WithShardIteratorAtTimestamp returns a Config with a modified at timestamp
and sets shardIteratorType to AT_TIMESTAMP. -/
def Config.WithShardIteratorAtTimestamp (c : Config) (t : Time) : Config :=
  { c with shardIteratorType := ShardIteratorTypeAtTimestamp, atTimestamp := some t }

/-- WithShardIteratorLatest returns a Config that sets shardIteratorType to LATEST. -/
def Config.WithShardIteratorLatest (c : Config) : Config :=
  { c with shardIteratorType := ShardIteratorTypeLatest }

/-- WithShardIteratorAtSequenceNumber: src/config.go line 145 assigns
kinesis.ShardIteratorTypeLatest, not ShardIteratorTypeAtSequenceNumber. -/
def Config.WithShardIteratorAtSequenceNumber (c : Config) (sequenceNumber : String) : Config :=
  { c with shardIteratorType := ShardIteratorTypeLatest, sequenceNumber := sequenceNumber }

/-- WithShardIteratorAfterSequenceNumber returns a Config that sets
shardIteratorType to AFTER_SEQUENCE_NUMBER. -/
def Config.WithShardIteratorAfterSequenceNumber (c : Config) (sequenceNumber : String) : Config :=
  { c with shardIteratorType := ShardIteratorTypeAfterSequenceNumber,
           sequenceNumber := sequenceNumber }

/-- WithShardIteratorTrimHorizon returns a Config that sets shardIteratorType
to TRIM_HORIZON. -/
def Config.WithShardIteratorTrimHorizon (c : Config) : Config :=
  { c with shardIteratorType := ShardIteratorTypeTrimHorizon }

/-- Modelled from the spec: the nine validation error values
(ErrConfigInvalid...) are package-level errors declared outside src/;
only their distinctness matters here. -/
inductive ConfigError where
  | ErrConfigInvalidThrottleDelay : ConfigError
  | ErrConfigInvalidCommitFrequency : ConfigError
  | ErrConfigInvalidShardCheckFrequency : ConfigError
  | ErrConfigInvalidLeaderActionFrequency : ConfigError
  | ErrConfigInvalidBufferSize : ConfigError
  | ErrConfigInvalidStats : ConfigError
  | ErrConfigInvalidDynamoCapacity : ConfigError
  | ErrConfigInvalidLogger : ConfigError
deriving DecidableEq, Repr

/-- Verify that a config struct has sane and valid values
(src/config.go lines 164-202). Returns none for a nil error. -/
def validateConfig (c : Config) : Option ConfigError :=
  if c.throttleDelay < 200 * millisecond then
    some .ErrConfigInvalidThrottleDelay
  else if c.commitFrequency = 0 then
    some .ErrConfigInvalidCommitFrequency
  else if c.shardCheckFrequency = 0 then
    some .ErrConfigInvalidShardCheckFrequency
  else if c.leaderActionFrequency = 0 then
    some .ErrConfigInvalidLeaderActionFrequency
  else if c.shardCheckFrequency > c.leaderActionFrequency then
    some .ErrConfigInvalidLeaderActionFrequency
  else if c.bufferSize = 0 then
    some .ErrConfigInvalidBufferSize
  else if c.stats = none then
    some .ErrConfigInvalidStats
  else if c.dynamoReadCapacity = 0 ∨ c.dynamoWriteCapacity = 0 then
    some .ErrConfigInvalidDynamoCapacity
  else if c.logger = none then
    some .ErrConfigInvalidLogger
  else
    none

/-- The spec-side list of the nine validation checks, in the documented
order, each paired with the error kind it yields. Follows the words of the
spec section 4.3. -/
def specCheckList (c : Config) : List (Bool × ConfigError) :=
  [ (decide (c.throttleDelay < 200 * millisecond), .ErrConfigInvalidThrottleDelay),
    (decide (c.commitFrequency = 0), .ErrConfigInvalidCommitFrequency),
    (decide (c.shardCheckFrequency = 0), .ErrConfigInvalidShardCheckFrequency),
    (decide (c.leaderActionFrequency = 0), .ErrConfigInvalidLeaderActionFrequency),
    (decide (c.shardCheckFrequency > c.leaderActionFrequency),
      .ErrConfigInvalidLeaderActionFrequency),
    (decide (c.bufferSize = 0), .ErrConfigInvalidBufferSize),
    (decide (c.stats = none), .ErrConfigInvalidStats),
    (decide (c.dynamoReadCapacity = 0 ∨ c.dynamoWriteCapacity = 0),
      .ErrConfigInvalidDynamoCapacity),
    (decide (c.logger = none), .ErrConfigInvalidLogger) ]

/-- Spec-side short-circuit evaluation: the error kind of the first failing
check in the list, none when every check passes. -/
def firstFailingCheck : List (Bool × ConfigError) → Option ConfigError
  | [] => none
  | (b, e) :: rest => if b then some e else firstFailingCheck rest

/-- A configuration whose commitFrequency, shardCheckFrequency,
leaderActionFrequency, bufferSize and Dynamo capacities are all negative:
the equals-zero checks of validateConfig do not reject it. -/
def negConfig : Config :=
  { NewConfig with
      commitFrequency := -1 * millisecond
      shardCheckFrequency := -2 * minute
      leaderActionFrequency := -1 * minute
      bufferSize := -1
      dynamoReadCapacity := -1
      dynamoWriteCapacity := -1 }

/-- A configuration with shardCheckFrequency above leaderActionFrequency but
also a throttleDelay below the floor: the earlier check wins. -/
def maskedConfig : Config :=
  { NewConfig with throttleDelay := 0, shardCheckFrequency := 2 * minute }

/-- C1 (counterexample): validateConfig accepts a configuration whose
commitFrequency, shardCheckFrequency, leaderActionFrequency, bufferSize,
dynamoReadCapacity and dynamoWriteCapacity are all negative, so acceptance
does not make those fields strictly positive: the checks compare against
zero on signed values. -/
theorem validateConfig_accepts_negative_fields :
    validateConfig negConfig = none ∧
    ¬(0 < negConfig.commitFrequency) ∧
    ¬(0 < negConfig.shardCheckFrequency) ∧
    ¬(0 < negConfig.leaderActionFrequency) ∧
    ¬(0 < negConfig.bufferSize) ∧
    ¬(0 < negConfig.dynamoReadCapacity) ∧
    ¬(0 < negConfig.dynamoWriteCapacity) := by
  decide

/-- C1 (amended): every configuration accepted by validateConfig has nonzero
(rather than strictly positive) commitFrequency, shardCheckFrequency,
leaderActionFrequency, bufferSize, dynamoReadCapacity and
dynamoWriteCapacity. -/
theorem validateConfig_ok_fields_nonzero (c : Config)
    (h : validateConfig c = none) :
    c.commitFrequency ≠ 0 ∧ c.shardCheckFrequency ≠ 0 ∧
    c.leaderActionFrequency ≠ 0 ∧ c.bufferSize ≠ 0 ∧
    c.dynamoReadCapacity ≠ 0 ∧ c.dynamoWriteCapacity ≠ 0 := by
  unfold validateConfig at h
  split_ifs at h with h1 h2 h3 h4 h5 h6 h7 h8 h9
  push_neg at h8
  exact ⟨h2, h3, h4, h6, h8.1, h8.2⟩

/-- Witness for validateConfig_ok_fields_nonzero at the default
configuration. -/
theorem validateConfig_ok_fields_nonzero_witness :
    validateConfig NewConfig = none ∧
    (NewConfig.commitFrequency ≠ 0 ∧ NewConfig.shardCheckFrequency ≠ 0 ∧
     NewConfig.leaderActionFrequency ≠ 0 ∧ NewConfig.bufferSize ≠ 0 ∧
     NewConfig.dynamoReadCapacity ≠ 0 ∧ NewConfig.dynamoWriteCapacity ≠ 0) :=
  ⟨by decide, validateConfig_ok_fields_nonzero NewConfig (by decide)⟩

/-- C2: validateConfig runs the nine documented checks in their fixed order
and returns the error kind of the first failing check, never an aggregate:
it equals short-circuit evaluation of the spec-side check list. -/
theorem validateConfig_runs_checks_in_order (c : Config) :
    validateConfig c = firstFailingCheck (specCheckList c) := by
  simp only [validateConfig, specCheckList, firstFailingCheck,
    decide_eq_true_eq]

/-- Witness for validateConfig_runs_checks_in_order: not required (no
hypothesis), but the equation holds at the default configuration. -/
theorem validateConfig_runs_checks_in_order_default :
    validateConfig NewConfig = firstFailingCheck (specCheckList NewConfig) := by
  decide

/-- C3: the default factory output passes the validator, with every
documented default in place: throttleDelay 250 ms, commitFrequency 1000 ms,
shardCheckFrequency and leaderActionFrequency 1 min, bufferSize 100, Dynamo
read and write capacity 10, waiter delay 3 s, AfterSequenceNumber start
mode, no-op stats and default logger sinks. -/
theorem newConfig_defaults_pass_validation :
    NewConfig.throttleDelay = 250 * millisecond ∧
    NewConfig.commitFrequency = 1000 * millisecond ∧
    NewConfig.shardCheckFrequency = 1 * minute ∧
    NewConfig.leaderActionFrequency = 1 * minute ∧
    NewConfig.bufferSize = 100 ∧
    NewConfig.dynamoReadCapacity = 10 ∧
    NewConfig.dynamoWriteCapacity = 10 ∧
    NewConfig.dynamoWaiterDelay = 3 * second ∧
    NewConfig.shardIteratorType = ShardIteratorTypeAfterSequenceNumber ∧
    NewConfig.stats = some StatReceiver.noopStatReceiver ∧
    NewConfig.logger = some Logger.defaultLogger ∧
    validateConfig NewConfig = none := by
  decide

/-- C4: for every configuration and every delay strictly below the 200 ms
floor, applying WithThrottleDelay and validating yields the throttle-delay
error kind. -/
theorem withThrottleDelay_below_floor_rejected (c : Config) (d : Duration)
    (h : d < 200 * millisecond) :
    validateConfig (c.WithThrottleDelay d) =
      some .ErrConfigInvalidThrottleDelay := by
  simp [validateConfig, Config.WithThrottleDelay, h]

/-- Witness for withThrottleDelay_below_floor_rejected: the default
configuration with a 100 ms throttle delay. -/
theorem withThrottleDelay_below_floor_rejected_witness :
    (100 * millisecond : Duration) < 200 * millisecond ∧
    validateConfig (NewConfig.WithThrottleDelay (100 * millisecond)) =
      some .ErrConfigInvalidThrottleDelay :=
  ⟨by decide,
   withThrottleDelay_below_floor_rejected NewConfig (100 * millisecond)
     (by decide)⟩

/-- C5 (counterexample): a configuration with shardCheckFrequency greater
than leaderActionFrequency but a throttleDelay below the floor validates to
the throttle-delay error, not InvalidLeaderActionFrequency: the claim does
not hold for every such configuration because earlier checks short-circuit
first. -/
theorem shardCheck_gt_leader_masked_by_earlier_check :
    maskedConfig.shardCheckFrequency > maskedConfig.leaderActionFrequency ∧
    validateConfig maskedConfig = some .ErrConfigInvalidThrottleDelay ∧
    ConfigError.ErrConfigInvalidThrottleDelay ≠
      ConfigError.ErrConfigInvalidLeaderActionFrequency := by
  decide

/-- C5 (amended): for every configuration that passes the earlier checks
(throttleDelay at or above the floor, commitFrequency and
shardCheckFrequency nonzero), shardCheckFrequency strictly greater than
leaderActionFrequency makes validation yield
ErrConfigInvalidLeaderActionFrequency. -/
theorem shardCheck_gt_leader_rejected (c : Config)
    (h1 : ¬ c.throttleDelay < 200 * millisecond)
    (h2 : c.commitFrequency ≠ 0)
    (h3 : c.shardCheckFrequency ≠ 0)
    (h4 : c.shardCheckFrequency > c.leaderActionFrequency) :
    validateConfig c = some .ErrConfigInvalidLeaderActionFrequency := by
  unfold validateConfig
  split_ifs <;> simp_all

/-- Witness for shardCheck_gt_leader_rejected: the default configuration
with shardCheckFrequency raised to 2 min while leaderActionFrequency stays
at the 1 min default. -/
theorem shardCheck_gt_leader_rejected_witness :
    (¬ (NewConfig.WithShardCheckFrequency (2 * minute)).throttleDelay <
        200 * millisecond) ∧
    (NewConfig.WithShardCheckFrequency (2 * minute)).commitFrequency ≠ 0 ∧
    (NewConfig.WithShardCheckFrequency (2 * minute)).shardCheckFrequency ≠ 0 ∧
    (NewConfig.WithShardCheckFrequency (2 * minute)).shardCheckFrequency >
      (NewConfig.WithShardCheckFrequency (2 * minute)).leaderActionFrequency ∧
    validateConfig (NewConfig.WithShardCheckFrequency (2 * minute)) =
      some .ErrConfigInvalidLeaderActionFrequency :=
  ⟨by decide, by decide, by decide, by decide,
   shardCheck_gt_leader_rejected (NewConfig.WithShardCheckFrequency (2 * minute))
     (by decide) (by decide) (by decide) (by decide)⟩

/-- C7: WithShardIteratorAtSequenceNumber sets the shard-iterator mode to
the same value as WithShardIteratorLatest, namely the LATEST constant, not
the distinct AT_SEQUENCE_NUMBER constant, while still storing the supplied
sequence number. -/
theorem withShardIteratorAtSequenceNumber_sets_latest (c : Config) (s : String) :
    (c.WithShardIteratorAtSequenceNumber s).shardIteratorType =
      ShardIteratorTypeLatest ∧
    (c.WithShardIteratorAtSequenceNumber s).shardIteratorType =
      (c.WithShardIteratorLatest).shardIteratorType ∧
    (c.WithShardIteratorAtSequenceNumber s).shardIteratorType ≠
      ShardIteratorTypeAtSequenceNumber ∧
    (c.WithShardIteratorAtSequenceNumber s).sequenceNumber = s := by
  refine ⟨rfl, rfl, ?_, rfl⟩
  show ShardIteratorTypeLatest ≠ ShardIteratorTypeAtSequenceNumber
  decide

/-- C8: WithShardIteratorAtTimestamp sets the AT_TIMESTAMP mode and stores
the timestamp while leaving sequenceNumber at its prior, possibly stale,
value; and the default configuration modified this way still validates,
because the start-mode fields are not themselves validated. -/
theorem withShardIteratorAtTimestamp_sets_mode (c : Config) (t : Time) :
    (c.WithShardIteratorAtTimestamp t).shardIteratorType =
      ShardIteratorTypeAtTimestamp ∧
    (c.WithShardIteratorAtTimestamp t).atTimestamp = some t ∧
    (c.WithShardIteratorAtTimestamp t).sequenceNumber = c.sequenceNumber ∧
    validateConfig (NewConfig.WithShardIteratorAtTimestamp t) = none :=
  ⟨rfl, rfl, rfl, rfl⟩

/-- C6: every fluent modifier is a pure value-semantics function: the output agrees with the receiver on every field except the targeted field(s), which hold the supplied value. The receiver itself and double application are covered by the pure embedding: Go value receivers copy the struct. -/
theorem modifiers_frame_conditions (c : Config) (d1 d2 d3 d4 d5 : Duration)
    (n1 n2 n3 : Int) (st1 : Option StatReceiver)
    (lg1 : Option Logger) (t1 : Time) (s1 s2 : String) :
    (c.WithThrottleDelay d1).stats = c.stats ∧
    (c.WithThrottleDelay d1).logger = c.logger ∧
    (c.WithThrottleDelay d1).throttleDelay = d1 ∧
    (c.WithThrottleDelay d1).commitFrequency = c.commitFrequency ∧
    (c.WithThrottleDelay d1).shardCheckFrequency = c.shardCheckFrequency ∧
    (c.WithThrottleDelay d1).leaderActionFrequency = c.leaderActionFrequency ∧
    (c.WithThrottleDelay d1).bufferSize = c.bufferSize ∧
    (c.WithThrottleDelay d1).dynamoReadCapacity = c.dynamoReadCapacity ∧
    (c.WithThrottleDelay d1).dynamoWriteCapacity = c.dynamoWriteCapacity ∧
    (c.WithThrottleDelay d1).dynamoWaiterDelay = c.dynamoWaiterDelay ∧
    (c.WithThrottleDelay d1).shardIteratorType = c.shardIteratorType ∧
    (c.WithThrottleDelay d1).atTimestamp = c.atTimestamp ∧
    (c.WithThrottleDelay d1).sequenceNumber = c.sequenceNumber ∧
    (c.WithCommitFrequency d2).stats = c.stats ∧
    (c.WithCommitFrequency d2).logger = c.logger ∧
    (c.WithCommitFrequency d2).throttleDelay = c.throttleDelay ∧
    (c.WithCommitFrequency d2).commitFrequency = d2 ∧
    (c.WithCommitFrequency d2).shardCheckFrequency = c.shardCheckFrequency ∧
    (c.WithCommitFrequency d2).leaderActionFrequency = c.leaderActionFrequency ∧
    (c.WithCommitFrequency d2).bufferSize = c.bufferSize ∧
    (c.WithCommitFrequency d2).dynamoReadCapacity = c.dynamoReadCapacity ∧
    (c.WithCommitFrequency d2).dynamoWriteCapacity = c.dynamoWriteCapacity ∧
    (c.WithCommitFrequency d2).dynamoWaiterDelay = c.dynamoWaiterDelay ∧
    (c.WithCommitFrequency d2).shardIteratorType = c.shardIteratorType ∧
    (c.WithCommitFrequency d2).atTimestamp = c.atTimestamp ∧
    (c.WithCommitFrequency d2).sequenceNumber = c.sequenceNumber ∧
    (c.WithShardCheckFrequency d3).stats = c.stats ∧
    (c.WithShardCheckFrequency d3).logger = c.logger ∧
    (c.WithShardCheckFrequency d3).throttleDelay = c.throttleDelay ∧
    (c.WithShardCheckFrequency d3).commitFrequency = c.commitFrequency ∧
    (c.WithShardCheckFrequency d3).shardCheckFrequency = d3 ∧
    (c.WithShardCheckFrequency d3).leaderActionFrequency = c.leaderActionFrequency ∧
    (c.WithShardCheckFrequency d3).bufferSize = c.bufferSize ∧
    (c.WithShardCheckFrequency d3).dynamoReadCapacity = c.dynamoReadCapacity ∧
    (c.WithShardCheckFrequency d3).dynamoWriteCapacity = c.dynamoWriteCapacity ∧
    (c.WithShardCheckFrequency d3).dynamoWaiterDelay = c.dynamoWaiterDelay ∧
    (c.WithShardCheckFrequency d3).shardIteratorType = c.shardIteratorType ∧
    (c.WithShardCheckFrequency d3).atTimestamp = c.atTimestamp ∧
    (c.WithShardCheckFrequency d3).sequenceNumber = c.sequenceNumber ∧
    (c.WithLeaderActionFrequency d4).stats = c.stats ∧
    (c.WithLeaderActionFrequency d4).logger = c.logger ∧
    (c.WithLeaderActionFrequency d4).throttleDelay = c.throttleDelay ∧
    (c.WithLeaderActionFrequency d4).commitFrequency = c.commitFrequency ∧
    (c.WithLeaderActionFrequency d4).shardCheckFrequency = c.shardCheckFrequency ∧
    (c.WithLeaderActionFrequency d4).leaderActionFrequency = d4 ∧
    (c.WithLeaderActionFrequency d4).bufferSize = c.bufferSize ∧
    (c.WithLeaderActionFrequency d4).dynamoReadCapacity = c.dynamoReadCapacity ∧
    (c.WithLeaderActionFrequency d4).dynamoWriteCapacity = c.dynamoWriteCapacity ∧
    (c.WithLeaderActionFrequency d4).dynamoWaiterDelay = c.dynamoWaiterDelay ∧
    (c.WithLeaderActionFrequency d4).shardIteratorType = c.shardIteratorType ∧
    (c.WithLeaderActionFrequency d4).atTimestamp = c.atTimestamp ∧
    (c.WithLeaderActionFrequency d4).sequenceNumber = c.sequenceNumber ∧
    (c.WithBufferSize n1).stats = c.stats ∧
    (c.WithBufferSize n1).logger = c.logger ∧
    (c.WithBufferSize n1).throttleDelay = c.throttleDelay ∧
    (c.WithBufferSize n1).commitFrequency = c.commitFrequency ∧
    (c.WithBufferSize n1).shardCheckFrequency = c.shardCheckFrequency ∧
    (c.WithBufferSize n1).leaderActionFrequency = c.leaderActionFrequency ∧
    (c.WithBufferSize n1).bufferSize = n1 ∧
    (c.WithBufferSize n1).dynamoReadCapacity = c.dynamoReadCapacity ∧
    (c.WithBufferSize n1).dynamoWriteCapacity = c.dynamoWriteCapacity ∧
    (c.WithBufferSize n1).dynamoWaiterDelay = c.dynamoWaiterDelay ∧
    (c.WithBufferSize n1).shardIteratorType = c.shardIteratorType ∧
    (c.WithBufferSize n1).atTimestamp = c.atTimestamp ∧
    (c.WithBufferSize n1).sequenceNumber = c.sequenceNumber ∧
    (c.WithStats st1).stats = st1 ∧
    (c.WithStats st1).logger = c.logger ∧
    (c.WithStats st1).throttleDelay = c.throttleDelay ∧
    (c.WithStats st1).commitFrequency = c.commitFrequency ∧
    (c.WithStats st1).shardCheckFrequency = c.shardCheckFrequency ∧
    (c.WithStats st1).leaderActionFrequency = c.leaderActionFrequency ∧
    (c.WithStats st1).bufferSize = c.bufferSize ∧
    (c.WithStats st1).dynamoReadCapacity = c.dynamoReadCapacity ∧
    (c.WithStats st1).dynamoWriteCapacity = c.dynamoWriteCapacity ∧
    (c.WithStats st1).dynamoWaiterDelay = c.dynamoWaiterDelay ∧
    (c.WithStats st1).shardIteratorType = c.shardIteratorType ∧
    (c.WithStats st1).atTimestamp = c.atTimestamp ∧
    (c.WithStats st1).sequenceNumber = c.sequenceNumber ∧
    (c.WithDynamoReadCapacity n2).stats = c.stats ∧
    (c.WithDynamoReadCapacity n2).logger = c.logger ∧
    (c.WithDynamoReadCapacity n2).throttleDelay = c.throttleDelay ∧
    (c.WithDynamoReadCapacity n2).commitFrequency = c.commitFrequency ∧
    (c.WithDynamoReadCapacity n2).shardCheckFrequency = c.shardCheckFrequency ∧
    (c.WithDynamoReadCapacity n2).leaderActionFrequency = c.leaderActionFrequency ∧
    (c.WithDynamoReadCapacity n2).bufferSize = c.bufferSize ∧
    (c.WithDynamoReadCapacity n2).dynamoReadCapacity = n2 ∧
    (c.WithDynamoReadCapacity n2).dynamoWriteCapacity = c.dynamoWriteCapacity ∧
    (c.WithDynamoReadCapacity n2).dynamoWaiterDelay = c.dynamoWaiterDelay ∧
    (c.WithDynamoReadCapacity n2).shardIteratorType = c.shardIteratorType ∧
    (c.WithDynamoReadCapacity n2).atTimestamp = c.atTimestamp ∧
    (c.WithDynamoReadCapacity n2).sequenceNumber = c.sequenceNumber ∧
    (c.WithDynamoWriteCapacity n3).stats = c.stats ∧
    (c.WithDynamoWriteCapacity n3).logger = c.logger ∧
    (c.WithDynamoWriteCapacity n3).throttleDelay = c.throttleDelay ∧
    (c.WithDynamoWriteCapacity n3).commitFrequency = c.commitFrequency ∧
    (c.WithDynamoWriteCapacity n3).shardCheckFrequency = c.shardCheckFrequency ∧
    (c.WithDynamoWriteCapacity n3).leaderActionFrequency = c.leaderActionFrequency ∧
    (c.WithDynamoWriteCapacity n3).bufferSize = c.bufferSize ∧
    (c.WithDynamoWriteCapacity n3).dynamoReadCapacity = c.dynamoReadCapacity ∧
    (c.WithDynamoWriteCapacity n3).dynamoWriteCapacity = n3 ∧
    (c.WithDynamoWriteCapacity n3).dynamoWaiterDelay = c.dynamoWaiterDelay ∧
    (c.WithDynamoWriteCapacity n3).shardIteratorType = c.shardIteratorType ∧
    (c.WithDynamoWriteCapacity n3).atTimestamp = c.atTimestamp ∧
    (c.WithDynamoWriteCapacity n3).sequenceNumber = c.sequenceNumber ∧
    (c.WithDynamoWaiterDelay d5).stats = c.stats ∧
    (c.WithDynamoWaiterDelay d5).logger = c.logger ∧
    (c.WithDynamoWaiterDelay d5).throttleDelay = c.throttleDelay ∧
    (c.WithDynamoWaiterDelay d5).commitFrequency = c.commitFrequency ∧
    (c.WithDynamoWaiterDelay d5).shardCheckFrequency = c.shardCheckFrequency ∧
    (c.WithDynamoWaiterDelay d5).leaderActionFrequency = c.leaderActionFrequency ∧
    (c.WithDynamoWaiterDelay d5).bufferSize = c.bufferSize ∧
    (c.WithDynamoWaiterDelay d5).dynamoReadCapacity = c.dynamoReadCapacity ∧
    (c.WithDynamoWaiterDelay d5).dynamoWriteCapacity = c.dynamoWriteCapacity ∧
    (c.WithDynamoWaiterDelay d5).dynamoWaiterDelay = d5 ∧
    (c.WithDynamoWaiterDelay d5).shardIteratorType = c.shardIteratorType ∧
    (c.WithDynamoWaiterDelay d5).atTimestamp = c.atTimestamp ∧
    (c.WithDynamoWaiterDelay d5).sequenceNumber = c.sequenceNumber ∧
    (c.WithLogger lg1).stats = c.stats ∧
    (c.WithLogger lg1).logger = lg1 ∧
    (c.WithLogger lg1).throttleDelay = c.throttleDelay ∧
    (c.WithLogger lg1).commitFrequency = c.commitFrequency ∧
    (c.WithLogger lg1).shardCheckFrequency = c.shardCheckFrequency ∧
    (c.WithLogger lg1).leaderActionFrequency = c.leaderActionFrequency ∧
    (c.WithLogger lg1).bufferSize = c.bufferSize ∧
    (c.WithLogger lg1).dynamoReadCapacity = c.dynamoReadCapacity ∧
    (c.WithLogger lg1).dynamoWriteCapacity = c.dynamoWriteCapacity ∧
    (c.WithLogger lg1).dynamoWaiterDelay = c.dynamoWaiterDelay ∧
    (c.WithLogger lg1).shardIteratorType = c.shardIteratorType ∧
    (c.WithLogger lg1).atTimestamp = c.atTimestamp ∧
    (c.WithLogger lg1).sequenceNumber = c.sequenceNumber ∧
    (c.WithShardIteratorAtTimestamp t1).stats = c.stats ∧
    (c.WithShardIteratorAtTimestamp t1).logger = c.logger ∧
    (c.WithShardIteratorAtTimestamp t1).throttleDelay = c.throttleDelay ∧
    (c.WithShardIteratorAtTimestamp t1).commitFrequency = c.commitFrequency ∧
    (c.WithShardIteratorAtTimestamp t1).shardCheckFrequency = c.shardCheckFrequency ∧
    (c.WithShardIteratorAtTimestamp t1).leaderActionFrequency = c.leaderActionFrequency ∧
    (c.WithShardIteratorAtTimestamp t1).bufferSize = c.bufferSize ∧
    (c.WithShardIteratorAtTimestamp t1).dynamoReadCapacity = c.dynamoReadCapacity ∧
    (c.WithShardIteratorAtTimestamp t1).dynamoWriteCapacity = c.dynamoWriteCapacity ∧
    (c.WithShardIteratorAtTimestamp t1).dynamoWaiterDelay = c.dynamoWaiterDelay ∧
    (c.WithShardIteratorAtTimestamp t1).shardIteratorType = ShardIteratorTypeAtTimestamp ∧
    (c.WithShardIteratorAtTimestamp t1).atTimestamp = some t1 ∧
    (c.WithShardIteratorAtTimestamp t1).sequenceNumber = c.sequenceNumber ∧
    (c.WithShardIteratorLatest).stats = c.stats ∧
    (c.WithShardIteratorLatest).logger = c.logger ∧
    (c.WithShardIteratorLatest).throttleDelay = c.throttleDelay ∧
    (c.WithShardIteratorLatest).commitFrequency = c.commitFrequency ∧
    (c.WithShardIteratorLatest).shardCheckFrequency = c.shardCheckFrequency ∧
    (c.WithShardIteratorLatest).leaderActionFrequency = c.leaderActionFrequency ∧
    (c.WithShardIteratorLatest).bufferSize = c.bufferSize ∧
    (c.WithShardIteratorLatest).dynamoReadCapacity = c.dynamoReadCapacity ∧
    (c.WithShardIteratorLatest).dynamoWriteCapacity = c.dynamoWriteCapacity ∧
    (c.WithShardIteratorLatest).dynamoWaiterDelay = c.dynamoWaiterDelay ∧
    (c.WithShardIteratorLatest).shardIteratorType = ShardIteratorTypeLatest ∧
    (c.WithShardIteratorLatest).atTimestamp = c.atTimestamp ∧
    (c.WithShardIteratorLatest).sequenceNumber = c.sequenceNumber ∧
    (c.WithShardIteratorAtSequenceNumber s1).stats = c.stats ∧
    (c.WithShardIteratorAtSequenceNumber s1).logger = c.logger ∧
    (c.WithShardIteratorAtSequenceNumber s1).throttleDelay = c.throttleDelay ∧
    (c.WithShardIteratorAtSequenceNumber s1).commitFrequency = c.commitFrequency ∧
    (c.WithShardIteratorAtSequenceNumber s1).shardCheckFrequency = c.shardCheckFrequency ∧
    (c.WithShardIteratorAtSequenceNumber s1).leaderActionFrequency = c.leaderActionFrequency ∧
    (c.WithShardIteratorAtSequenceNumber s1).bufferSize = c.bufferSize ∧
    (c.WithShardIteratorAtSequenceNumber s1).dynamoReadCapacity = c.dynamoReadCapacity ∧
    (c.WithShardIteratorAtSequenceNumber s1).dynamoWriteCapacity = c.dynamoWriteCapacity ∧
    (c.WithShardIteratorAtSequenceNumber s1).dynamoWaiterDelay = c.dynamoWaiterDelay ∧
    (c.WithShardIteratorAtSequenceNumber s1).shardIteratorType = ShardIteratorTypeLatest ∧
    (c.WithShardIteratorAtSequenceNumber s1).atTimestamp = c.atTimestamp ∧
    (c.WithShardIteratorAtSequenceNumber s1).sequenceNumber = s1 ∧
    (c.WithShardIteratorAfterSequenceNumber s2).stats = c.stats ∧
    (c.WithShardIteratorAfterSequenceNumber s2).logger = c.logger ∧
    (c.WithShardIteratorAfterSequenceNumber s2).throttleDelay = c.throttleDelay ∧
    (c.WithShardIteratorAfterSequenceNumber s2).commitFrequency = c.commitFrequency ∧
    (c.WithShardIteratorAfterSequenceNumber s2).shardCheckFrequency = c.shardCheckFrequency ∧
    (c.WithShardIteratorAfterSequenceNumber s2).leaderActionFrequency = c.leaderActionFrequency ∧
    (c.WithShardIteratorAfterSequenceNumber s2).bufferSize = c.bufferSize ∧
    (c.WithShardIteratorAfterSequenceNumber s2).dynamoReadCapacity = c.dynamoReadCapacity ∧
    (c.WithShardIteratorAfterSequenceNumber s2).dynamoWriteCapacity = c.dynamoWriteCapacity ∧
    (c.WithShardIteratorAfterSequenceNumber s2).dynamoWaiterDelay = c.dynamoWaiterDelay ∧
    (c.WithShardIteratorAfterSequenceNumber s2).shardIteratorType = ShardIteratorTypeAfterSequenceNumber ∧
    (c.WithShardIteratorAfterSequenceNumber s2).atTimestamp = c.atTimestamp ∧
    (c.WithShardIteratorAfterSequenceNumber s2).sequenceNumber = s2 ∧
    (c.WithShardIteratorTrimHorizon).stats = c.stats ∧
    (c.WithShardIteratorTrimHorizon).logger = c.logger ∧
    (c.WithShardIteratorTrimHorizon).throttleDelay = c.throttleDelay ∧
    (c.WithShardIteratorTrimHorizon).commitFrequency = c.commitFrequency ∧
    (c.WithShardIteratorTrimHorizon).shardCheckFrequency = c.shardCheckFrequency ∧
    (c.WithShardIteratorTrimHorizon).leaderActionFrequency = c.leaderActionFrequency ∧
    (c.WithShardIteratorTrimHorizon).bufferSize = c.bufferSize ∧
    (c.WithShardIteratorTrimHorizon).dynamoReadCapacity = c.dynamoReadCapacity ∧
    (c.WithShardIteratorTrimHorizon).dynamoWriteCapacity = c.dynamoWriteCapacity ∧
    (c.WithShardIteratorTrimHorizon).dynamoWaiterDelay = c.dynamoWaiterDelay ∧
    (c.WithShardIteratorTrimHorizon).shardIteratorType = ShardIteratorTypeTrimHorizon ∧
    (c.WithShardIteratorTrimHorizon).atTimestamp = c.atTimestamp ∧
    (c.WithShardIteratorTrimHorizon).sequenceNumber = c.sequenceNumber := by
  exact ⟨rfl, rfl, rfl, rfl, rfl, rfl, rfl, rfl, rfl, rfl, rfl, rfl, rfl, rfl, rfl, rfl, rfl, rfl, rfl, rfl, rfl, rfl, rfl, rfl, rfl, rfl, rfl, rfl, rfl, rfl, rfl, rfl, rfl, rfl, rfl, rfl, rfl, rfl, rfl, rfl, rfl, rfl, rfl, rfl, rfl, rfl, rfl, rfl, rfl, rfl, rfl, rfl, rfl, rfl, rfl, rfl, rfl, rfl, rfl, rfl, rfl, rfl, rfl, rfl, rfl, rfl, rfl, rfl, rfl, rfl, rfl, rfl, rfl, rfl, rfl, rfl, rfl, rfl, rfl, rfl, rfl, rfl, rfl, rfl, rfl, rfl, rfl, rfl, rfl, rfl, rfl, rfl, rfl, rfl, rfl, rfl, rfl, rfl, rfl, rfl, rfl, rfl, rfl, rfl, rfl, rfl, rfl, rfl, rfl, rfl, rfl, rfl, rfl, rfl, rfl, rfl, rfl, rfl, rfl, rfl, rfl, rfl, rfl, rfl, rfl, rfl, rfl, rfl, rfl, rfl, rfl, rfl, rfl, rfl, rfl, rfl, rfl, rfl, rfl, rfl, rfl, rfl, rfl, rfl, rfl, rfl, rfl, rfl, rfl, rfl, rfl, rfl, rfl, rfl, rfl, rfl, rfl, rfl, rfl, rfl, rfl, rfl, rfl, rfl, rfl, rfl, rfl, rfl, rfl, rfl, rfl, rfl, rfl, rfl, rfl, rfl, rfl, rfl, rfl, rfl, rfl, rfl, rfl, rfl, rfl, rfl, rfl, rfl, rfl, rfl, rfl, rfl, rfl, rfl, rfl⟩

/-- C9: every modifier is last-writer-wins and idempotent: applying the same modifier twice in sequence equals a single application with the last argument, for every modifier of the configuration. -/
theorem modifiers_last_writer_wins (c : Config) (d1 d2 d3 d4 d5 e1 e2 e3 e4 e5 : Duration)
    (n1 n2 n3 m1 m2 m3 : Int) (st1 st2 : Option StatReceiver)
    (lg1 lg2 : Option Logger) (t1 t2 : Time) (s1 s2 u1 u2 : String) :
    (((c.WithThrottleDelay d1)).WithThrottleDelay e1) = (c.WithThrottleDelay e1) ∧
    (((c.WithCommitFrequency d2)).WithCommitFrequency e2) = (c.WithCommitFrequency e2) ∧
    (((c.WithShardCheckFrequency d3)).WithShardCheckFrequency e3) = (c.WithShardCheckFrequency e3) ∧
    (((c.WithLeaderActionFrequency d4)).WithLeaderActionFrequency e4) = (c.WithLeaderActionFrequency e4) ∧
    (((c.WithBufferSize n1)).WithBufferSize m1) = (c.WithBufferSize m1) ∧
    (((c.WithStats st1)).WithStats st2) = (c.WithStats st2) ∧
    (((c.WithDynamoReadCapacity n2)).WithDynamoReadCapacity m2) = (c.WithDynamoReadCapacity m2) ∧
    (((c.WithDynamoWriteCapacity n3)).WithDynamoWriteCapacity m3) = (c.WithDynamoWriteCapacity m3) ∧
    (((c.WithDynamoWaiterDelay d5)).WithDynamoWaiterDelay e5) = (c.WithDynamoWaiterDelay e5) ∧
    (((c.WithLogger lg1)).WithLogger lg2) = (c.WithLogger lg2) ∧
    (((c.WithShardIteratorAtTimestamp t1)).WithShardIteratorAtTimestamp t2) = (c.WithShardIteratorAtTimestamp t2) ∧
    (((c.WithShardIteratorLatest)).WithShardIteratorLatest) = (c.WithShardIteratorLatest) ∧
    (((c.WithShardIteratorAtSequenceNumber s1)).WithShardIteratorAtSequenceNumber u1) = (c.WithShardIteratorAtSequenceNumber u1) ∧
    (((c.WithShardIteratorAfterSequenceNumber s2)).WithShardIteratorAfterSequenceNumber u2) = (c.WithShardIteratorAfterSequenceNumber u2) ∧
    (((c.WithShardIteratorTrimHorizon)).WithShardIteratorTrimHorizon) = (c.WithShardIteratorTrimHorizon) := by
  exact ⟨rfl, rfl, rfl, rfl, rfl, rfl, rfl, rfl, rfl, rfl, rfl, rfl, rfl, rfl, rfl⟩

/-- C10: modifiers targeting disjoint field sets commute, for every such pair, including WithThrottleDelay with WithBufferSize. Only the five shard-iterator modifiers overlap (they share shardIteratorType), so those pairs are excluded. -/
theorem disjoint_modifiers_commute (c : Config) (d1 d2 d3 d4 d5 : Duration)
    (n1 n2 n3 : Int) (st1 : Option StatReceiver)
    (lg1 : Option Logger) (t1 : Time) (s1 s2 : String) :
    ((c.WithThrottleDelay d1).WithCommitFrequency d2) = ((c.WithCommitFrequency d2).WithThrottleDelay d1) ∧
    ((c.WithThrottleDelay d1).WithShardCheckFrequency d3) = ((c.WithShardCheckFrequency d3).WithThrottleDelay d1) ∧
    ((c.WithThrottleDelay d1).WithLeaderActionFrequency d4) = ((c.WithLeaderActionFrequency d4).WithThrottleDelay d1) ∧
    ((c.WithThrottleDelay d1).WithBufferSize n1) = ((c.WithBufferSize n1).WithThrottleDelay d1) ∧
    ((c.WithThrottleDelay d1).WithStats st1) = ((c.WithStats st1).WithThrottleDelay d1) ∧
    ((c.WithThrottleDelay d1).WithDynamoReadCapacity n2) = ((c.WithDynamoReadCapacity n2).WithThrottleDelay d1) ∧
    ((c.WithThrottleDelay d1).WithDynamoWriteCapacity n3) = ((c.WithDynamoWriteCapacity n3).WithThrottleDelay d1) ∧
    ((c.WithThrottleDelay d1).WithDynamoWaiterDelay d5) = ((c.WithDynamoWaiterDelay d5).WithThrottleDelay d1) ∧
    ((c.WithThrottleDelay d1).WithLogger lg1) = ((c.WithLogger lg1).WithThrottleDelay d1) ∧
    ((c.WithThrottleDelay d1).WithShardIteratorAtTimestamp t1) = ((c.WithShardIteratorAtTimestamp t1).WithThrottleDelay d1) ∧
    ((c.WithThrottleDelay d1).WithShardIteratorLatest) = ((c.WithShardIteratorLatest).WithThrottleDelay d1) ∧
    ((c.WithThrottleDelay d1).WithShardIteratorAtSequenceNumber s1) = ((c.WithShardIteratorAtSequenceNumber s1).WithThrottleDelay d1) ∧
    ((c.WithThrottleDelay d1).WithShardIteratorAfterSequenceNumber s2) = ((c.WithShardIteratorAfterSequenceNumber s2).WithThrottleDelay d1) ∧
    ((c.WithThrottleDelay d1).WithShardIteratorTrimHorizon) = ((c.WithShardIteratorTrimHorizon).WithThrottleDelay d1) ∧
    ((c.WithCommitFrequency d2).WithShardCheckFrequency d3) = ((c.WithShardCheckFrequency d3).WithCommitFrequency d2) ∧
    ((c.WithCommitFrequency d2).WithLeaderActionFrequency d4) = ((c.WithLeaderActionFrequency d4).WithCommitFrequency d2) ∧
    ((c.WithCommitFrequency d2).WithBufferSize n1) = ((c.WithBufferSize n1).WithCommitFrequency d2) ∧
    ((c.WithCommitFrequency d2).WithStats st1) = ((c.WithStats st1).WithCommitFrequency d2) ∧
    ((c.WithCommitFrequency d2).WithDynamoReadCapacity n2) = ((c.WithDynamoReadCapacity n2).WithCommitFrequency d2) ∧
    ((c.WithCommitFrequency d2).WithDynamoWriteCapacity n3) = ((c.WithDynamoWriteCapacity n3).WithCommitFrequency d2) ∧
    ((c.WithCommitFrequency d2).WithDynamoWaiterDelay d5) = ((c.WithDynamoWaiterDelay d5).WithCommitFrequency d2) ∧
    ((c.WithCommitFrequency d2).WithLogger lg1) = ((c.WithLogger lg1).WithCommitFrequency d2) ∧
    ((c.WithCommitFrequency d2).WithShardIteratorAtTimestamp t1) = ((c.WithShardIteratorAtTimestamp t1).WithCommitFrequency d2) ∧
    ((c.WithCommitFrequency d2).WithShardIteratorLatest) = ((c.WithShardIteratorLatest).WithCommitFrequency d2) ∧
    ((c.WithCommitFrequency d2).WithShardIteratorAtSequenceNumber s1) = ((c.WithShardIteratorAtSequenceNumber s1).WithCommitFrequency d2) ∧
    ((c.WithCommitFrequency d2).WithShardIteratorAfterSequenceNumber s2) = ((c.WithShardIteratorAfterSequenceNumber s2).WithCommitFrequency d2) ∧
    ((c.WithCommitFrequency d2).WithShardIteratorTrimHorizon) = ((c.WithShardIteratorTrimHorizon).WithCommitFrequency d2) ∧
    ((c.WithShardCheckFrequency d3).WithLeaderActionFrequency d4) = ((c.WithLeaderActionFrequency d4).WithShardCheckFrequency d3) ∧
    ((c.WithShardCheckFrequency d3).WithBufferSize n1) = ((c.WithBufferSize n1).WithShardCheckFrequency d3) ∧
    ((c.WithShardCheckFrequency d3).WithStats st1) = ((c.WithStats st1).WithShardCheckFrequency d3) ∧
    ((c.WithShardCheckFrequency d3).WithDynamoReadCapacity n2) = ((c.WithDynamoReadCapacity n2).WithShardCheckFrequency d3) ∧
    ((c.WithShardCheckFrequency d3).WithDynamoWriteCapacity n3) = ((c.WithDynamoWriteCapacity n3).WithShardCheckFrequency d3) ∧
    ((c.WithShardCheckFrequency d3).WithDynamoWaiterDelay d5) = ((c.WithDynamoWaiterDelay d5).WithShardCheckFrequency d3) ∧
    ((c.WithShardCheckFrequency d3).WithLogger lg1) = ((c.WithLogger lg1).WithShardCheckFrequency d3) ∧
    ((c.WithShardCheckFrequency d3).WithShardIteratorAtTimestamp t1) = ((c.WithShardIteratorAtTimestamp t1).WithShardCheckFrequency d3) ∧
    ((c.WithShardCheckFrequency d3).WithShardIteratorLatest) = ((c.WithShardIteratorLatest).WithShardCheckFrequency d3) ∧
    ((c.WithShardCheckFrequency d3).WithShardIteratorAtSequenceNumber s1) = ((c.WithShardIteratorAtSequenceNumber s1).WithShardCheckFrequency d3) ∧
    ((c.WithShardCheckFrequency d3).WithShardIteratorAfterSequenceNumber s2) = ((c.WithShardIteratorAfterSequenceNumber s2).WithShardCheckFrequency d3) ∧
    ((c.WithShardCheckFrequency d3).WithShardIteratorTrimHorizon) = ((c.WithShardIteratorTrimHorizon).WithShardCheckFrequency d3) ∧
    ((c.WithLeaderActionFrequency d4).WithBufferSize n1) = ((c.WithBufferSize n1).WithLeaderActionFrequency d4) ∧
    ((c.WithLeaderActionFrequency d4).WithStats st1) = ((c.WithStats st1).WithLeaderActionFrequency d4) ∧
    ((c.WithLeaderActionFrequency d4).WithDynamoReadCapacity n2) = ((c.WithDynamoReadCapacity n2).WithLeaderActionFrequency d4) ∧
    ((c.WithLeaderActionFrequency d4).WithDynamoWriteCapacity n3) = ((c.WithDynamoWriteCapacity n3).WithLeaderActionFrequency d4) ∧
    ((c.WithLeaderActionFrequency d4).WithDynamoWaiterDelay d5) = ((c.WithDynamoWaiterDelay d5).WithLeaderActionFrequency d4) ∧
    ((c.WithLeaderActionFrequency d4).WithLogger lg1) = ((c.WithLogger lg1).WithLeaderActionFrequency d4) ∧
    ((c.WithLeaderActionFrequency d4).WithShardIteratorAtTimestamp t1) = ((c.WithShardIteratorAtTimestamp t1).WithLeaderActionFrequency d4) ∧
    ((c.WithLeaderActionFrequency d4).WithShardIteratorLatest) = ((c.WithShardIteratorLatest).WithLeaderActionFrequency d4) ∧
    ((c.WithLeaderActionFrequency d4).WithShardIteratorAtSequenceNumber s1) = ((c.WithShardIteratorAtSequenceNumber s1).WithLeaderActionFrequency d4) ∧
    ((c.WithLeaderActionFrequency d4).WithShardIteratorAfterSequenceNumber s2) = ((c.WithShardIteratorAfterSequenceNumber s2).WithLeaderActionFrequency d4) ∧
    ((c.WithLeaderActionFrequency d4).WithShardIteratorTrimHorizon) = ((c.WithShardIteratorTrimHorizon).WithLeaderActionFrequency d4) ∧
    ((c.WithBufferSize n1).WithStats st1) = ((c.WithStats st1).WithBufferSize n1) ∧
    ((c.WithBufferSize n1).WithDynamoReadCapacity n2) = ((c.WithDynamoReadCapacity n2).WithBufferSize n1) ∧
    ((c.WithBufferSize n1).WithDynamoWriteCapacity n3) = ((c.WithDynamoWriteCapacity n3).WithBufferSize n1) ∧
    ((c.WithBufferSize n1).WithDynamoWaiterDelay d5) = ((c.WithDynamoWaiterDelay d5).WithBufferSize n1) ∧
    ((c.WithBufferSize n1).WithLogger lg1) = ((c.WithLogger lg1).WithBufferSize n1) ∧
    ((c.WithBufferSize n1).WithShardIteratorAtTimestamp t1) = ((c.WithShardIteratorAtTimestamp t1).WithBufferSize n1) ∧
    ((c.WithBufferSize n1).WithShardIteratorLatest) = ((c.WithShardIteratorLatest).WithBufferSize n1) ∧
    ((c.WithBufferSize n1).WithShardIteratorAtSequenceNumber s1) = ((c.WithShardIteratorAtSequenceNumber s1).WithBufferSize n1) ∧
    ((c.WithBufferSize n1).WithShardIteratorAfterSequenceNumber s2) = ((c.WithShardIteratorAfterSequenceNumber s2).WithBufferSize n1) ∧
    ((c.WithBufferSize n1).WithShardIteratorTrimHorizon) = ((c.WithShardIteratorTrimHorizon).WithBufferSize n1) ∧
    ((c.WithStats st1).WithDynamoReadCapacity n2) = ((c.WithDynamoReadCapacity n2).WithStats st1) ∧
    ((c.WithStats st1).WithDynamoWriteCapacity n3) = ((c.WithDynamoWriteCapacity n3).WithStats st1) ∧
    ((c.WithStats st1).WithDynamoWaiterDelay d5) = ((c.WithDynamoWaiterDelay d5).WithStats st1) ∧
    ((c.WithStats st1).WithLogger lg1) = ((c.WithLogger lg1).WithStats st1) ∧
    ((c.WithStats st1).WithShardIteratorAtTimestamp t1) = ((c.WithShardIteratorAtTimestamp t1).WithStats st1) ∧
    ((c.WithStats st1).WithShardIteratorLatest) = ((c.WithShardIteratorLatest).WithStats st1) ∧
    ((c.WithStats st1).WithShardIteratorAtSequenceNumber s1) = ((c.WithShardIteratorAtSequenceNumber s1).WithStats st1) ∧
    ((c.WithStats st1).WithShardIteratorAfterSequenceNumber s2) = ((c.WithShardIteratorAfterSequenceNumber s2).WithStats st1) ∧
    ((c.WithStats st1).WithShardIteratorTrimHorizon) = ((c.WithShardIteratorTrimHorizon).WithStats st1) ∧
    ((c.WithDynamoReadCapacity n2).WithDynamoWriteCapacity n3) = ((c.WithDynamoWriteCapacity n3).WithDynamoReadCapacity n2) ∧
    ((c.WithDynamoReadCapacity n2).WithDynamoWaiterDelay d5) = ((c.WithDynamoWaiterDelay d5).WithDynamoReadCapacity n2) ∧
    ((c.WithDynamoReadCapacity n2).WithLogger lg1) = ((c.WithLogger lg1).WithDynamoReadCapacity n2) ∧
    ((c.WithDynamoReadCapacity n2).WithShardIteratorAtTimestamp t1) = ((c.WithShardIteratorAtTimestamp t1).WithDynamoReadCapacity n2) ∧
    ((c.WithDynamoReadCapacity n2).WithShardIteratorLatest) = ((c.WithShardIteratorLatest).WithDynamoReadCapacity n2) ∧
    ((c.WithDynamoReadCapacity n2).WithShardIteratorAtSequenceNumber s1) = ((c.WithShardIteratorAtSequenceNumber s1).WithDynamoReadCapacity n2) ∧
    ((c.WithDynamoReadCapacity n2).WithShardIteratorAfterSequenceNumber s2) = ((c.WithShardIteratorAfterSequenceNumber s2).WithDynamoReadCapacity n2) ∧
    ((c.WithDynamoReadCapacity n2).WithShardIteratorTrimHorizon) = ((c.WithShardIteratorTrimHorizon).WithDynamoReadCapacity n2) ∧
    ((c.WithDynamoWriteCapacity n3).WithDynamoWaiterDelay d5) = ((c.WithDynamoWaiterDelay d5).WithDynamoWriteCapacity n3) ∧
    ((c.WithDynamoWriteCapacity n3).WithLogger lg1) = ((c.WithLogger lg1).WithDynamoWriteCapacity n3) ∧
    ((c.WithDynamoWriteCapacity n3).WithShardIteratorAtTimestamp t1) = ((c.WithShardIteratorAtTimestamp t1).WithDynamoWriteCapacity n3) ∧
    ((c.WithDynamoWriteCapacity n3).WithShardIteratorLatest) = ((c.WithShardIteratorLatest).WithDynamoWriteCapacity n3) ∧
    ((c.WithDynamoWriteCapacity n3).WithShardIteratorAtSequenceNumber s1) = ((c.WithShardIteratorAtSequenceNumber s1).WithDynamoWriteCapacity n3) ∧
    ((c.WithDynamoWriteCapacity n3).WithShardIteratorAfterSequenceNumber s2) = ((c.WithShardIteratorAfterSequenceNumber s2).WithDynamoWriteCapacity n3) ∧
    ((c.WithDynamoWriteCapacity n3).WithShardIteratorTrimHorizon) = ((c.WithShardIteratorTrimHorizon).WithDynamoWriteCapacity n3) ∧
    ((c.WithDynamoWaiterDelay d5).WithLogger lg1) = ((c.WithLogger lg1).WithDynamoWaiterDelay d5) ∧
    ((c.WithDynamoWaiterDelay d5).WithShardIteratorAtTimestamp t1) = ((c.WithShardIteratorAtTimestamp t1).WithDynamoWaiterDelay d5) ∧
    ((c.WithDynamoWaiterDelay d5).WithShardIteratorLatest) = ((c.WithShardIteratorLatest).WithDynamoWaiterDelay d5) ∧
    ((c.WithDynamoWaiterDelay d5).WithShardIteratorAtSequenceNumber s1) = ((c.WithShardIteratorAtSequenceNumber s1).WithDynamoWaiterDelay d5) ∧
    ((c.WithDynamoWaiterDelay d5).WithShardIteratorAfterSequenceNumber s2) = ((c.WithShardIteratorAfterSequenceNumber s2).WithDynamoWaiterDelay d5) ∧
    ((c.WithDynamoWaiterDelay d5).WithShardIteratorTrimHorizon) = ((c.WithShardIteratorTrimHorizon).WithDynamoWaiterDelay d5) ∧
    ((c.WithLogger lg1).WithShardIteratorAtTimestamp t1) = ((c.WithShardIteratorAtTimestamp t1).WithLogger lg1) ∧
    ((c.WithLogger lg1).WithShardIteratorLatest) = ((c.WithShardIteratorLatest).WithLogger lg1) ∧
    ((c.WithLogger lg1).WithShardIteratorAtSequenceNumber s1) = ((c.WithShardIteratorAtSequenceNumber s1).WithLogger lg1) ∧
    ((c.WithLogger lg1).WithShardIteratorAfterSequenceNumber s2) = ((c.WithShardIteratorAfterSequenceNumber s2).WithLogger lg1) ∧
    ((c.WithLogger lg1).WithShardIteratorTrimHorizon) = ((c.WithShardIteratorTrimHorizon).WithLogger lg1) := by
  exact ⟨rfl, rfl, rfl, rfl, rfl, rfl, rfl, rfl, rfl, rfl, rfl, rfl, rfl, rfl, rfl, rfl, rfl, rfl, rfl, rfl, rfl, rfl, rfl, rfl, rfl, rfl, rfl, rfl, rfl, rfl, rfl, rfl, rfl, rfl, rfl, rfl, rfl, rfl, rfl, rfl, rfl, rfl, rfl, rfl, rfl, rfl, rfl, rfl, rfl, rfl, rfl, rfl, rfl, rfl, rfl, rfl, rfl, rfl, rfl, rfl, rfl, rfl, rfl, rfl, rfl, rfl, rfl, rfl, rfl, rfl, rfl, rfl, rfl, rfl, rfl, rfl, rfl, rfl, rfl, rfl, rfl, rfl, rfl, rfl, rfl, rfl, rfl, rfl, rfl, rfl, rfl, rfl, rfl, rfl, rfl⟩

end Kinsumer
